import Mathlib

/-!
Shallow embedding of the ProductivityPal Discord bot (`discordbot.py`).

Time is modelled in seconds since an arbitrary epoch whose day boundaries
fall on multiples of 86400 (`datetime` values are naive local times; the
code only ever compares datetimes sharing the same microsecond component,
so a seconds-granularity model is exact).  Messaging, the Gemini AI call
and file persistence are modelled by explicit inputs/outputs: an action
receives the channel-resolution outcome (`Option Unit`), the stream of
correlated replies it would observe, and the AI call outcome
(`Except Unit String`), and reports the messages it posts and whether it
called `save_state`.
-/

namespace DiscordBot

/-- `CONFIG["REMINDER_INTERVAL_HOURS"]` (discordbot.py line 25). -/
def REMINDER_INTERVAL_HOURS : Nat := 3

/-! ## ReminderBot -/

/-- Persistent state of `ReminderBot`: `reminder_count` and
`last_remind_time` (lines 116-117). -/
structure ReminderState where
  reminder_count : Nat
  last_remind_time : Option String
deriving DecidableEq

/-- The labelled fields that `send_reminder` adds to its embed
(lines 186-190); identified by constructor, the display text is cosmetic. -/
inductive EmbedField where
  | dsaQuestions
  | osConceptsWeekend
  | personalProjects
  | officeProjects
deriving DecidableEq

/-- The field list built by `send_reminder` (lines 186-190): DSA first,
then the OS-concepts field only when `is_weekend`, then personal and
office projects. -/
def reminderFields (is_weekend : Bool) : List EmbedField :=
  [EmbedField.dsaQuestions]
    ++ (if is_weekend then [EmbedField.osConceptsWeekend] else [])
    ++ [EmbedField.personalProjects, EmbedField.officeProjects]

/-- Result of one `send_reminder` firing: the mutated in-memory state, the
embed's fields when a message was posted (`none` when the channel could
not be resolved and the cycle was skipped), and whether `save_state` ran. -/
structure ReminderResult where
  state : ReminderState
  posted : Option (List EmbedField)
  saved : Bool
deriving DecidableEq

/-- `ReminderBot.send_reminder` (lines 165-195).  It first increments
`reminder_count` and sets `last_remind_time`, then looks up the channel:
if the channel is missing it returns (posting nothing, saving nothing);
otherwise it builds the embed — with the weekend-only field exactly when
`weekday >= 5` (line 171) — sends it and calls `save_state` (line 195). -/
def send_reminder (st : ReminderState) (now_str : String) (weekday : Nat)
    (channel : Option Unit) : ReminderResult :=
  let st1 : ReminderState :=
    { reminder_count := st.reminder_count + 1, last_remind_time := some now_str }
  let is_weekend : Bool := decide (5 ≤ weekday)
  match channel with
  | none => { state := st1, posted := none, saved := false }
  | some _ => { state := st1, posted := some (reminderFields is_weekend), saved := true }

/-- The firing times of a `discord.ext.tasks.loop(hours=interval)` task.
Modelled from the `discord.ext.tasks` library (not part of this
repository): once started (after `before_loop` completes), `Loop` runs
the decorated coroutine immediately for its first iteration, then sleeps
`interval` between consecutive iterations.  `task_loop_fire start
interval n` is the time of the n-th invocation, in seconds. -/
def task_loop_fire (start interval : Nat) : Nat → Nat
  | 0 => start
  | n + 1 => task_loop_fire start interval n + interval

/-! ## Randomized daily scheduler (`ManagerBot.schedule_random_checks`) -/

/-- Start-of-day instant for a time `now` in seconds:
`current_time.replace(hour=i, minute=0, second=0)` zeroes everything below
the day, so the window anchors are `day_start now + i * 3600`. -/
def day_start (now : Nat) : Nat := now / 86400 * 86400

/-- The fire time computed for window start hour `i` with random offset
`offset` minutes (lines 239-241): `check_time = current_time.replace(hour=i,
minute=0, second=0) + timedelta(minutes=random_minutes)`, then
`if check_time < current_time: check_time += timedelta(days=1)`. -/
def check_time (now i offset : Nat) : Nat :=
  let t := day_start now + i * 3600 + offset * 60
  if t < now then t + 86400 else t

/-- The window start hours iterated by `for i in range(0, 24, interval)`
(line 237): `[0, interval, 2*interval, ...]`, all below 24, which Python
produces as `k * interval` for `k < ceil(24 / interval)`. -/
def window_starts (interval : Nat) : List Nat :=
  (List.range ((24 + interval - 1) / interval)).map (fun k => k * interval)

/-- `ManagerBot.schedule_random_checks` (lines 232-245): after cancelling
all previously armed tasks and clearing the dict, it arms one task per
window start hour `i`, keyed by `i` in `status_checks`, firing at
`check_time now i (offs i)`.  `offs i` is the `random.randint(0,
interval * 60 - 1)` draw for window `i`.  The returned association list
is the new `status_checks` dict (slot key, fire time). -/
def schedule_random_checks (now interval : Nat) (offs : Nat → Nat) :
    List (Nat × Nat) :=
  (window_starts interval).map (fun i => (i, check_time now i (offs i)))

/-- The armed timers of `ManagerBot`: the `status_checks` dict (slot key,
fire time).  `schedule_random_checks` cancels every task held in the dict
(lines 233-234) and replaces the dict wholesale (line 235), so after a
call the armed timers are exactly the new dict's tasks, independent of
the prior state. -/
def reschedule_all (now interval : Nat) (offs : Nat → Nat)
    (_prior : List (Nat × Nat)) : List (Nat × Nat) :=
  schedule_random_checks now interval offs

/-! ## Reply correlation predicates -/

/-- An incoming Discord message as seen by the `check` predicates: its
channel id, whether its author is a bot, and the `message_id` its reply
reference points at (`none` when the message carries no usable reply
reference). -/
structure Message where
  channel : Nat
  author_bot : Bool
  reference : Option Nat
deriving DecidableEq

/-- The `check` closure inside `ManagerBot.check_status` (lines 296-297):
`message.channel == channel and not message.author.bot and
message.reference and message.reference.message_id == status_message.id`. -/
def status_check_pred (channelId promptId : Nat) (m : Message) : Bool :=
  m.channel == channelId && !m.author_bot &&
    (match m.reference with
     | some mid => mid == promptId
     | none => false)

/-- The `check` closure inside `JobTracker.check_applications`
(lines 424-425); textually identical to the status-check predicate. -/
def jobs_check_pred (channelId promptId : Nat) (m : Message) : Bool :=
  m.channel == channelId && !m.author_bot &&
    (match m.reference with
     | some mid => mid == promptId
     | none => false)

/-! ## Gemini calls and fallbacks -/

/-- The fixed fallback string returned by `ManagerBot.get_gemini_response`
on any exception (line 274). -/
def manager_fallback : String :=
  "I\x27m having trouble connecting to my AI services. Let\x27s check in again later, but in the meantime, remember to take breaks when needed and stay focused on your priorities."

/-- The fixed fallback string returned by
`JobTracker.get_application_analysis` on any exception (line 396). -/
def analysis_fallback : String :=
  "Great job applying to these positions! Keep tracking your applications and following up when appropriate. Remember that job searching is a numbers game - persistence is key to finding the right opportunity."

/-- `ManagerBot.get_gemini_response` (lines 253-274): the whole Gemini
call is wrapped in `try/except`; any raised exception is caught and the
fixed fallback string is returned instead. -/
def get_gemini_response (ai : Except Unit String) : String :=
  match ai with
  | Except.ok t => t
  | Except.error _ => manager_fallback

/-- `JobTracker.get_application_analysis` (lines 376-396): same
try/except shape with its own fallback string. -/
def get_application_analysis (ai : Except Unit String) : String :=
  match ai with
  | Except.ok t => t
  | Except.error _ => analysis_fallback

/-! ## ManagerBot status check -/

/-- One record appended to `self.conversations` (lines 302-307). -/
structure ConversationRecord where
  timestamp : String
  user : String
  user_status : String
  bot_response : String
deriving DecidableEq

/-- `ManagerBot` persistent state (lines 201-202). -/
structure ManagerState where
  conversations : List ConversationRecord
  last_check_time : Option String
deriving DecidableEq

/-- A correlated reply as consumed by `check_status`. -/
structure Reply where
  author : String
  content : String
deriving DecidableEq

/-- Messages `check_status` can post to the status channel. -/
inductive ManagerMsg where
  | statusPrompt
  | feedback (text : String)
  | timeoutNotice
deriving DecidableEq

/-- Result of one `check_status` run: mutated state, posted messages in
order, and whether `save_state` ran. -/
structure StatusResult where
  state : ManagerState
  messages : List ManagerMsg
  saved : Bool
deriving DecidableEq

/-- `ManagerBot.check_status` (lines 276-321).  `last_check_time` is set
first; a missing channel skips the cycle.  Otherwise the prompt is
posted; `reply` is the outcome of `wait_for` (`some r` when a correlated
reply arrives before the 1800 s timeout, `none` on `TimeoutError`).  On a
reply: Gemini is consulted (fallback on failure), one record is appended
to `conversations`, the feedback is posted and `save_state` runs.  On
timeout: only the timeout notice is posted, nothing appended or saved. -/
def check_status (now_str : String) (st : ManagerState) (channel : Option Unit)
    (reply : Option Reply) (ai : Except Unit String) : StatusResult :=
  let st0 : ManagerState := { st with last_check_time := some now_str }
  match channel with
  | none => { state := st0, messages := [], saved := false }
  | some _ =>
    match reply with
    | some r =>
      let manager_response := get_gemini_response ai
      let record : ConversationRecord :=
        { timestamp := now_str, user := r.author, user_status := r.content,
          bot_response := manager_response }
      { state := { st0 with conversations := st0.conversations ++ [record] },
        messages := [ManagerMsg.statusPrompt, ManagerMsg.feedback manager_response],
        saved := true }
    | none =>
      { state := st0,
        messages := [ManagerMsg.statusPrompt, ManagerMsg.timeoutNotice],
        saved := false }

/-! ## JobTracker -/

/-- Python `str.lower()` on one character, as used on message contents
(line 431); ASCII letters map to lowercase, everything else unchanged. -/
def lowerChar (c : Char) : Char :=
  if 65 ≤ c.toNat ∧ c.toNat ≤ 90 then Char.ofNat (c.toNat + 32) else c

/-- Python `str.lower()` (`response.content.lower()`, line 431). -/
def py_lower (s : String) : String := String.mk (s.data.map lowerChar)

/-- The terminal keyword list of line 431:
`['done', 'finished', 'complete', 'end']`. -/
def terminal_keywords : List String := ["done", "finished", "complete", "end"]

/-- One outcome of a `wait_for` call inside the collection loop: either a
correlated reply with the given content, or a `TimeoutError`. -/
inductive JEvent where
  | reply (content : String)
  | timeout
deriving DecidableEq

/-- The `while collecting` loop of `check_applications` (lines 427-439)
run over the stream of `wait_for` outcomes.  Returns the `jobs_applied`
accumulator and whether the loop ended via `TimeoutError`.  A terminal
keyword reply (case-insensitive) sets `collecting = False` without
appending; any other reply is appended (and acknowledged) and the loop
continues; a timeout posts the closing notice and stops.  The loop in the
source only exits on a terminal reply or a timeout, so only event lists
ending in one of those arise; an exhausted list is read as "collection
still pending" with the accumulator as drained so far. -/
def collect_jobs : List JEvent → List String × Bool
  | [] => ([], false)
  | JEvent.timeout :: _ => ([], true)
  | JEvent.reply c :: rest =>
    if py_lower c ∈ terminal_keywords then ([], false)
    else
      let p := collect_jobs rest
      (c :: p.1, p.2)

/-- One record built per accumulated job (lines 452-457). -/
structure ApplicationRecord where
  company : String
  date : String
  status : String
  notes : String
deriving DecidableEq

/-- `JobTracker` persistent state (lines 326-327). -/
structure JobState where
  applications : List ApplicationRecord
  last_check_date : Option String
deriving DecidableEq

/-- Messages `check_applications` can post to the job channel. -/
inductive JobMsg where
  | trackerPrompt
  | timeoutClose
  | noApplications
  | analysis (text : String) (jobCount : Nat)
deriving DecidableEq

/-- Result of one `check_applications` run. -/
structure JobsResult where
  state : JobState
  messages : List JobMsg
  saved : Bool
deriving DecidableEq

/-- `JobTracker.check_applications` (lines 398-480).  `last_check_date`
is set first; a missing channel skips the cycle.  Otherwise the tracker
prompt is posted and the collection loop runs over `events`.  If the
accumulator is empty, the "no applications" embed is posted; otherwise
one `ApplicationRecord` per job (company = reply content, date =
`last_check_date`, status "Applied", empty notes) is appended via
`self.applications.extend`, and the analysis embed (Gemini text, fallback
on failure, one field per job) is posted.  `save_state` runs at the end
of both branches (line 480). -/
def check_applications (date : String) (st : JobState) (channel : Option Unit)
    (events : List JEvent) (ai : Except Unit String) : JobsResult :=
  let st0 : JobState := { st with last_check_date := some date }
  match channel with
  | none => { state := st0, messages := [], saved := false }
  | some _ =>
    let collected := collect_jobs events
    let jobs_applied := collected.1
    let timeoutMsgs : List JobMsg :=
      if collected.2 then [JobMsg.timeoutClose] else []
    if jobs_applied = [] then
      { state := st0,
        messages := [JobMsg.trackerPrompt] ++ timeoutMsgs ++ [JobMsg.noApplications],
        saved := true }
    else
      let new_applications : List ApplicationRecord :=
        jobs_applied.map (fun job =>
          { company := job, date := date, status := "Applied", notes := "" })
      let analysisText := get_application_analysis ai
      { state := { st0 with applications := st0.applications ++ new_applications },
        messages := [JobMsg.trackerPrompt] ++ timeoutMsgs
          ++ [JobMsg.analysis analysisText jobs_applied.length],
        saved := true }

/-! ## Helper lemmas -/

lemma ceil_div_24 (interval : Nat) (hpos : 0 < interval) (hdvd : interval ∣ 24) :
    (24 + interval - 1) / interval = 24 / interval := by
  obtain ⟨m, hm⟩ := hdvd
  rw [hm]
  have h1 : interval * m + interval - 1 = interval * m + (interval - 1) := by omega
  rw [h1, Nat.mul_add_div hpos, Nat.div_eq_of_lt (by omega),
    Nat.mul_div_cancel_left m hpos, Nat.add_zero]

lemma window_starts_length (interval : Nat) (hpos : 0 < interval)
    (hdvd : interval ∣ 24) : (window_starts interval).length = 24 / interval := by
  unfold window_starts
  rw [List.length_map, List.length_range, ceil_div_24 interval hpos hdvd]

lemma window_starts_bound {interval i : Nat} (hpos : 0 < interval)
    (hdvd : interval ∣ 24) (hi : i ∈ window_starts interval) :
    i + interval ≤ 24 := by
  obtain ⟨k, hk, rfl⟩ := List.mem_map.1 hi
  rw [List.mem_range, ceil_div_24 interval hpos hdvd] at hk
  have h1 : (k + 1) * interval ≤ 24 / interval * interval :=
    Nat.mul_le_mul_right interval hk
  rw [Nat.div_mul_cancel hdvd] at h1
  calc k * interval + interval = (k + 1) * interval := by ring
    _ ≤ 24 := h1

lemma window_starts_nodup (interval : Nat) (hpos : 0 < interval) :
    (window_starts interval).Nodup := by
  exact (List.nodup_range _).map (mul_left_injective₀ hpos.ne')

lemma schedule_map_fst (now interval : Nat) (offs : Nat → Nat) :
    (schedule_random_checks now interval offs).map Prod.fst =
      window_starts interval := by
  simp [schedule_random_checks, List.map_map, Function.comp_def]

/-! ## Claim theorems -/

/-- Claim C1: one call to `schedule_random_checks` with an
`intervalHours` that evenly divides 24 arms exactly `24 / intervalHours`
window timers, one per window start hour in `{0, intervalHours, ...}`;
each fire time is today at `h:00` plus the uniform minute offset drawn
from `[0, intervalHours * 60)`, shifted forward by exactly one day iff
that instant is earlier than now, so each armed fire time stays within
its own window's bounds (its time of day lies in
`[h * 3600, (h + intervalHours) * 3600)` seconds) and is never earlier
than now. -/
theorem schedule_random_checks_spec (now interval : Nat) (offs : Nat → Nat)
    (hpos : 0 < interval) (hdvd : interval ∣ 24)
    (hoffs : ∀ i, offs i < interval * 60) :
    (schedule_random_checks now interval offs).length = 24 / interval ∧
    (schedule_random_checks now interval offs).map Prod.fst =
      window_starts interval ∧
    ∀ p ∈ schedule_random_checks now interval offs,
      now ≤ p.2 ∧
      p.2 % 86400 = p.1 * 3600 + offs p.1 * 60 ∧
      p.1 * 3600 ≤ p.2 % 86400 ∧
      p.2 % 86400 < (p.1 + interval) * 3600 ∧
      (day_start now + p.1 * 3600 + offs p.1 * 60 < now →
        p.2 = day_start now + p.1 * 3600 + offs p.1 * 60 + 86400) ∧
      (now ≤ day_start now + p.1 * 3600 + offs p.1 * 60 →
        p.2 = day_start now + p.1 * 3600 + offs p.1 * 60) := by
  refine ⟨?_, schedule_map_fst now interval offs, ?_⟩
  · simp only [schedule_random_checks, List.length_map]
    exact window_starts_length interval hpos hdvd
  · intro p hp
    obtain ⟨i, hi, rfl⟩ := List.mem_map.1 hp
    have hb : i + interval ≤ 24 := window_starts_bound hpos hdvd hi
    have ho : offs i < interval * 60 := hoffs i
    have hx : i * 3600 + offs i * 60 < 86400 := by omega
    simp only [check_time, day_start]
    refine ⟨?_, ?_, ?_, ?_, ?_, ?_⟩ <;> · split_ifs with hlt <;> omega

/-- Claim C1 witness: the hypotheses and the window-count conclusion hold
at the concrete input `now = 0`, `interval = 3`, all offsets zero. -/
theorem schedule_random_checks_spec_witness :
    (0 < 3 ∧ (3 : Nat) ∣ 24 ∧ ∀ i : Nat, (fun _ : Nat => 0) i < 3 * 60) ∧
    (schedule_random_checks 0 3 (fun _ : Nat => 0)).length = 24 / 3 :=
  ⟨⟨by decide, by decide, fun _ => Nat.zero_lt_succ 179⟩,
    (schedule_random_checks_spec 0 3 (fun _ : Nat => 0) (by decide) (by decide)
      (fun _ => Nat.zero_lt_succ 179)).1⟩

/-- Claim C4: `schedule_random_checks` cancels every previously armed
task (all of them are held in the `status_checks` dict, which is iterated
and cancelled, then replaced wholesale), so after two successive calls
the armed timers are exactly the second call's `24 / intervalHours`
timers, with pairwise-distinct slot keys (at most one active timer per
window slot), independent of whatever was armed before. -/
theorem reschedule_all_no_duplicate_arm (interval now₁ now₂ : Nat)
    (offs₁ offs₂ : Nat → Nat) (prior : List (Nat × Nat))
    (hpos : 0 < interval) (hdvd : interval ∣ 24) :
    (reschedule_all now₂ interval offs₂
        (reschedule_all now₁ interval offs₁ prior)).length = 24 / interval ∧
    ((reschedule_all now₂ interval offs₂
        (reschedule_all now₁ interval offs₁ prior)).map Prod.fst).Nodup ∧
    ∀ prior₂ : List (Nat × Nat),
      reschedule_all now₂ interval offs₂
          (reschedule_all now₁ interval offs₁ prior) =
        reschedule_all now₂ interval offs₂ prior₂ := by
  refine ⟨?_, ?_, fun prior₂ => rfl⟩
  · simp only [reschedule_all, schedule_random_checks, List.length_map]
    exact window_starts_length interval hpos hdvd
  · rw [reschedule_all, schedule_map_fst]
    exact window_starts_nodup interval hpos

/-- Claim C4 witness: the hypotheses and the timer-count conclusion hold
at the concrete input `interval = 3`, empty prior state, zero offsets. -/
theorem reschedule_all_no_duplicate_arm_witness :
    (0 < 3 ∧ (3 : Nat) ∣ 24) ∧
    (reschedule_all 0 3 (fun _ : Nat => 0)
      (reschedule_all 0 3 (fun _ : Nat => 0) [])).length = 24 / 3 :=
  ⟨⟨by decide, by decide⟩,
    (reschedule_all_no_duplicate_arm 3 0 0 (fun _ => 0) (fun _ => 0) []
      (by decide) (by decide)).1⟩

/-- Claim C2: in the multi-turn collection loop, a reply whose content
case-insensitively equals one of `{done, finished, complete, end}` ends
collection without being appended (independently of any later events);
the input sequence `["A", "B", "done"]` yields accumulator `["A", "B"]`
and exactly 2 appended records with company = reply content and status
"Applied"; input `["done"]` yields an empty accumulator, the "no
applications" notice and 0 appended records; a timeout after the single
non-terminal reply `"A"` ends collection with accumulator `["A"]` still
processed as a completed batch (1 record appended, analysis posted). -/
theorem check_applications_collection_spec :
    (∀ (c : String) (rest : List JEvent), py_lower c ∈ terminal_keywords →
      collect_jobs (JEvent.reply c :: rest) = ([], false)) ∧
    (∀ (st : JobState) (d t : String),
      check_applications d st (some ())
          [JEvent.reply "A", JEvent.reply "B", JEvent.reply "done"]
          (Except.ok t) =
        ⟨⟨st.applications ++ [⟨"A", d, "Applied", ""⟩, ⟨"B", d, "Applied", ""⟩],
            some d⟩,
          [JobMsg.trackerPrompt, JobMsg.analysis t 2], true⟩) ∧
    (∀ (st : JobState) (d : String) (ai : Except Unit String),
      check_applications d st (some ()) [JEvent.reply "done"] ai =
        ⟨⟨st.applications, some d⟩,
          [JobMsg.trackerPrompt, JobMsg.noApplications], true⟩) ∧
    (∀ (st : JobState) (d t : String),
      check_applications d st (some ()) [JEvent.reply "A", JEvent.timeout]
          (Except.ok t) =
        ⟨⟨st.applications ++ [⟨"A", d, "Applied", ""⟩], some d⟩,
          [JobMsg.trackerPrompt, JobMsg.timeoutClose, JobMsg.analysis t 1],
          true⟩) := by
  refine ⟨?_, ?_, ?_, ?_⟩
  · intro c rest h
    simp [collect_jobs, if_pos h]
  · intro st d t
    have hc : collect_jobs [JEvent.reply "A", JEvent.reply "B", JEvent.reply "done"] =
        (["A", "B"], false) := by decide
    simp [check_applications, hc, get_application_analysis]
  · intro st d ai
    have hc : collect_jobs [JEvent.reply "done"] = ([], false) := by decide
    simp [check_applications, hc]
  · intro st d t
    have hc : collect_jobs [JEvent.reply "A", JEvent.timeout] = (["A"], true) := by
      decide
    simp [check_applications, hc, get_application_analysis]

/-- Claim C2 witness: the terminal-keyword hypothesis is discharged at
the concrete (uppercase) input `"DONE"`, showing the case-insensitive
terminal reply ends collection without being appended. -/
theorem check_applications_collection_spec_witness :
    py_lower "DONE" ∈ terminal_keywords ∧
    collect_jobs [JEvent.reply "DONE"] = ([], false) :=
  ⟨by decide, check_applications_collection_spec.1 "DONE" [] (by decide)⟩

/-- Claim C3: in the single-exchange status check, a correlated reply
arriving before the timeout appends exactly one conversation record
(timestamp, user, user status text, bot response text) to the manager
state and persists it (`save_state` runs); no reply before the timeout
appends zero records, persists nothing, and posts the timeout notice. -/
theorem check_status_spec :
    (∀ (now_str : String) (st : ManagerState) (r : Reply)
        (ai : Except Unit String),
      (check_status now_str st (some ()) (some r) ai).state.conversations =
        st.conversations ++
          [⟨now_str, r.author, r.content, get_gemini_response ai⟩] ∧
      (check_status now_str st (some ()) (some r) ai).saved = true ∧
      (check_status now_str st (some ()) (some r) ai).messages =
        [ManagerMsg.statusPrompt,
          ManagerMsg.feedback (get_gemini_response ai)]) ∧
    (∀ (now_str : String) (st : ManagerState) (ai : Except Unit String),
      (check_status now_str st (some ()) none ai).state.conversations =
        st.conversations ∧
      (check_status now_str st (some ()) none ai).saved = false ∧
      (check_status now_str st (some ()) none ai).messages =
        [ManagerMsg.statusPrompt, ManagerMsg.timeoutNotice]) := by
  exact ⟨fun now_str st r ai => ⟨rfl, rfl, rfl⟩,
    fun now_str st ai => ⟨rfl, rfl, rfl⟩⟩

/-- Claim C5 counterexample: the reminder loop's first invocation happens
immediately at start time, not one full interval after start — with
`start = 0` and the configured 3-hour interval, the 0-th firing is at
time 0, strictly before `start + interval`, refuting "the first
invocation occurs only after one full interval has elapsed". -/
theorem task_loop_first_fire_immediate :
    task_loop_fire 0 (REMINDER_INTERVAL_HOURS * 3600) 0 = 0 ∧
    ¬ (0 + REMINDER_INTERVAL_HOURS * 3600 ≤
        task_loop_fire 0 (REMINDER_INTERVAL_HOURS * 3600) 0) := by
  decide

/-- Claim C5 (amended): once started, the reminder loop invokes the
callback every `intervalHours` hours, the first invocation occurring
immediately at start (`discord.ext.tasks.loop` runs its first iteration
right away) and each later invocation exactly one interval after the
previous one; the n-th invocation is at `start + n * interval`. -/
theorem task_loop_fire_schedule (start interval n : Nat) :
    task_loop_fire start interval 0 = start ∧
    task_loop_fire start interval (n + 1) =
      task_loop_fire start interval n + interval ∧
    task_loop_fire start interval n = start + n * interval := by
  refine ⟨rfl, rfl, ?_⟩
  induction n with
  | zero => simp [task_loop_fire]
  | succ k ih => simp [task_loop_fire, ih]; ring

/-- Claim C6: both `check` predicates (status check and job tracker)
accept an incoming message iff it is in the prompt's channel, its author
is not a bot, and it replies to (references) the originating prompt
message's id; a message lacking the correlation reference or authored by
a bot is ignored. -/
theorem check_pred_correlation (channelId promptId : Nat) (m : Message) :
    (status_check_pred channelId promptId m = true ↔
      m.channel = channelId ∧ m.author_bot = false ∧
        m.reference = some promptId) ∧
    (jobs_check_pred channelId promptId m = true ↔
      m.channel = channelId ∧ m.author_bot = false ∧
        m.reference = some promptId) := by
  obtain ⟨mc, mb, mr⟩ := m
  constructor <;>
    · cases mr <;>
        simp [status_check_pred, jobs_check_pred, Bool.and_eq_true, and_assoc]

/-- Claim C7: every failure of the AI call is caught at the call site and
replaced by the fixed fallback string, so the calling action still
completes its message delivery (the feedback / analysis message is posted
carrying the fallback text) and no failure propagates past the action. -/
theorem ai_failure_fallback :
    (∀ e : Unit, get_gemini_response (Except.error e) = manager_fallback) ∧
    (∀ e : Unit,
      get_application_analysis (Except.error e) = analysis_fallback) ∧
    (∀ (now_str : String) (st : ManagerState) (r : Reply) (e : Unit),
      (check_status now_str st (some ()) (some r) (Except.error e)).messages =
        [ManagerMsg.statusPrompt, ManagerMsg.feedback manager_fallback] ∧
      (check_status now_str st (some ()) (some r) (Except.error e)).saved =
        true) ∧
    (∀ (d : String) (st : JobState) (e : Unit),
      (check_applications d st (some ())
          [JEvent.reply "A", JEvent.reply "done"] (Except.error e)).messages =
        [JobMsg.trackerPrompt, JobMsg.analysis analysis_fallback 1] ∧
      (check_applications d st (some ())
          [JEvent.reply "A", JEvent.reply "done"] (Except.error e)).saved =
        true) := by
  refine ⟨fun e => rfl, fun e => rfl, fun now_str st r e => ⟨rfl, rfl⟩, ?_⟩
  intro d st e
  have hc : collect_jobs [JEvent.reply "A", JEvent.reply "done"] =
      (["A"], false) := by decide
  constructor <;> simp [check_applications, hc, get_application_analysis]

/-- Claim C8 counterexample: a reminder firing during which the channel
cannot be resolved does mutate the in-memory state (the count becomes 1)
but does not persist it — `save_state` is not reached — refuting
"the updated state is persisted after every firing, including firings
where the channel cannot be resolved". -/
theorem send_reminder_skip_not_persisted :
    (send_reminder ⟨0, none⟩ "2024-01-01 00:00:00" 0 none).state.reminder_count
        = 1 ∧
    (send_reminder ⟨0, none⟩ "2024-01-01 00:00:00" 0 none).saved = false := by
  decide

/-- Claim C8 (amended): after every firing of the reminder action that
resolves its channel and posts a message, the updated state (incremented
`reminder_count`, new `last_remind_time`) is persisted; a firing whose
channel cannot be resolved skips the cycle and persists nothing. -/
theorem send_reminder_persistence (st : ReminderState) (now_str : String)
    (weekday : Nat) :
    (send_reminder st now_str weekday (some ())).saved = true ∧
    (send_reminder st now_str weekday (some ())).state =
      ⟨st.reminder_count + 1, some now_str⟩ ∧
    (send_reminder st now_str weekday none).saved = false := by
  exact ⟨rfl, rfl, rfl⟩

/-- Claim C9: a posted reminder embed contains the OS-concepts field iff
the local day of week at firing time is Saturday or Sunday (weekday index
5 or 6); on weekdays the embed contains no such field. -/
theorem send_reminder_weekend_field (st : ReminderState) (now_str : String)
    (weekday : Nat) (h : weekday < 7) :
    ∃ fs, (send_reminder st now_str weekday (some ())).posted = some fs ∧
      (EmbedField.osConceptsWeekend ∈ fs ↔ weekday = 5 ∨ weekday = 6) := by
  refine ⟨reminderFields (decide (5 ≤ weekday)), rfl, ?_⟩
  have hmem : ∀ b : Bool,
      EmbedField.osConceptsWeekend ∈ reminderFields b ↔ b = true := by
    intro b
    cases b <;> decide
  rw [hmem]
  simp only [decide_eq_true_eq]
  omega

/-- Claim C9 witness: at the concrete weekday index 6 (Sunday), the
posted embed exists and the weekend-field equivalence holds. -/
theorem send_reminder_weekend_field_witness :
    (6 : Nat) < 7 ∧
    ∃ fs, (send_reminder ⟨0, none⟩ "t" 6 (some ())).posted = some fs ∧
      (EmbedField.osConceptsWeekend ∈ fs ↔ (6 : Nat) = 5 ∨ (6 : Nat) = 6) :=
  ⟨by decide, send_reminder_weekend_field ⟨0, none⟩ "t" 6 (by decide)⟩

/-- Claim C10: a reminder firing with an unresolvable channel posts
nothing and saves nothing, yet the in-memory `reminder_count` was already
incremented and `last_remind_time` updated before the channel check; the
next firing that succeeds persists a count that includes the skipped
cycle. -/
theorem send_reminder_skipped_cycle_state (st : ReminderState)
    (now_str now_str2 : String) (weekday weekday2 : Nat) :
    (send_reminder st now_str weekday none).posted = none ∧
    (send_reminder st now_str weekday none).saved = false ∧
    (send_reminder st now_str weekday none).state.reminder_count =
      st.reminder_count + 1 ∧
    (send_reminder st now_str weekday none).state.last_remind_time =
      some now_str ∧
    (send_reminder (send_reminder st now_str weekday none).state now_str2
        weekday2 (some ())).saved = true ∧
    (send_reminder (send_reminder st now_str weekday none).state now_str2
        weekday2 (some ())).state.reminder_count = st.reminder_count + 2 := by
  exact ⟨rfl, rfl, rfl, rfl, rfl, rfl⟩

end DiscordBot
